import Mathlib

/-!
Verification of the session controller in `stomp/cli.py` (the stomp.py
command-line interface).  The Python source is embedded shallowly:

* bytes are `Nat` values below 256;
* the base64 transfer codec (`base64.b64encode(...).decode()` in `sendfile`,
  `base64.b64decode(body.encode())` in `on_message`) is the standard RFC 4648
  base64 alphabet with `=` padding;
* each CLI operation becomes a pure function from the session state and the
  argument token list to the new state, the list of calls issued to the
  connection capability, and the lines printed.
-/

/-- The 64-character standard base64 alphabet used by Python's `base64`
module. -/
def b64chars : List Char :=
  "ABCDEFGHIJKLMNOPQRSTUVWXYZabcdefghijklmnopqrstuvwxyz0123456789+/".data

/-- The character encoding a 6-bit group. -/
def sextetChar (n : Nat) : Char := b64chars.getD n 'A'

/-- The 6-bit group encoded by a character (its index in the alphabet). -/
def charSextet (c : Char) : Nat := b64chars.indexOf c

/-- Base64 encoding of a byte sequence, as performed by
`base64.b64encode(s).decode()` in `StompCLI.sendfile` (cli.py line 216):
three bytes become four alphabet characters; a one- or two-byte tail is
padded with `=`. -/
def b64encode : List Nat → List Char
  | [] => []
  | [a] =>
      [sextetChar (a / 4), sextetChar ((a % 4) * 16), '=', '=']
  | [a, b] =>
      [sextetChar (a / 4), sextetChar ((a % 4) * 16 + b / 16),
       sextetChar ((b % 16) * 4), '=']
  | a :: b :: c :: rest =>
      sextetChar (a / 4) :: sextetChar ((a % 4) * 16 + b / 16) ::
      sextetChar ((b % 16) * 4 + c / 64) :: sextetChar (c % 64) ::
      b64encode rest

/-- First byte recovered from a decoded quadruple. -/
def dByte1 (p q : Char) : Nat := charSextet p * 4 + charSextet q / 16

/-- Second byte recovered from a decoded quadruple. -/
def dByte2 (q r : Char) : Nat := (charSextet q % 16) * 16 + charSextet r / 4

/-- Third byte recovered from a decoded quadruple. -/
def dByte3 (r t : Char) : Nat := (charSextet r % 4) * 64 + charSextet t

/-- Base64 decoding of a character sequence, as performed by
`base64.b64decode(body.encode())` in `StompCLI.on_message` (cli.py line 70):
four characters yield three bytes, except that a `=`-padded final quadruple
yields one or two bytes. -/
def b64decode : List Char → List Nat
  | p :: q :: r :: t :: rest =>
      if t = '=' then
        if r = '=' then [dByte1 p q]
        else [dByte1 p q, dByte2 q r]
      else dByte1 p q :: dByte2 q r :: dByte3 r t :: b64decode rest
  | _ => []

theorem charSextet_sextetChar : ∀ n, n < 64 → charSextet (sextetChar n) = n := by
  decide

theorem sextetChar_ne_pad : ∀ n, n < 64 → sextetChar n ≠ '=' := by
  decide

theorem b64decode_b64encode :
    ∀ l : List Nat, (∀ x ∈ l, x < 256) → b64decode (b64encode l) = l
  | [], _ => rfl
  | [a], h => by
      have ha : a < 256 := h a (by simp)
      simp only [b64encode, b64decode, dByte1, eq_self_iff_true, if_true, ite_true]
      rw [charSextet_sextetChar _ (by omega), charSextet_sextetChar _ (by omega)]
      simp only [List.cons.injEq, and_true]
      omega
  | [a, b], h => by
      have ha : a < 256 := h a (by simp)
      have hb : b < 256 := h b (by simp)
      simp only [b64encode, b64decode, dByte1, dByte2, eq_self_iff_true, if_true,
        ite_true]
      rw [if_neg (sextetChar_ne_pad _ (by omega))]
      rw [charSextet_sextetChar _ (by omega), charSextet_sextetChar _ (by omega),
          charSextet_sextetChar _ (by omega)]
      simp only [List.cons.injEq, and_true]
      omega
  | a :: b :: c :: rest, h => by
      have ha : a < 256 := h a (by simp)
      have hb : b < 256 := h b (by simp)
      have hc : c < 256 := h c (by simp)
      have ih := b64decode_b64encode rest (fun x hx => h x (by simp_all))
      simp only [b64encode, b64decode, dByte1, dByte2, dByte3]
      rw [if_neg (sextetChar_ne_pad _ (by omega))]
      rw [charSextet_sextetChar _ (by omega), charSextet_sextetChar _ (by omega),
          charSextet_sextetChar _ (by omega), charSextet_sextetChar _ (by omega)]
      simp only [List.cons.injEq]
      exact ⟨by omega, by omega, by omega, ih⟩

/-! ## The session controller state and the connection capability -/

/-- The mutable session state owned by `StompCLI`: the current transaction
token (`self.transaction_id`, `None` at construction, cli.py line 34). -/
structure SessionState where
  transaction_id : Option String
deriving Repr, DecidableEq

/-- Python truthiness of the `transaction_id` attribute: `None` and the empty
string are falsy, every other string is truthy. -/
def truthy : Option String → Bool
  | none => false
  | some s => !(s == "")

/-- One call into the connection capability (`self.conn`), recording the
method and the arguments passed at the call site in cli.py. -/
inductive ConnCall where
  | ack (headers : List (String × String)) (transaction : Option String)
  | abort (transaction : Option String)
  | begin
  | commit (transaction : Option String)
  | disconnect
  | send (destination : String) (message : String) (filename : Option String)
      (transaction : Option String)
  | subscribe (destination : String) (ack : String)
  | unsubscribe (destination : String)
deriving Repr, DecidableEq

/-- The environment a command invocation runs against: the token the
connection would return from `begin()` (modelled from the spec:
`begin() -> transactionToken`, the connection class is not under src/),
and the state of the filesystem seen by `sendfile`. -/
structure Env where
  beginToken : String
  fileExists : String → Bool
  fileContent : String → List Nat

/-- The observable outcome of one command invocation: the new session state,
the calls made into the connection capability (in order), and the lines
printed (in order). -/
structure Effect where
  state : SessionState
  calls : List ConnCall
  prints : List String
deriving Repr, DecidableEq

/-- `StompCLI.ack` (cli.py lines 100-119): with fewer than two tokens print a
usage line; otherwise acknowledge the message id, attaching the transaction
token when one is truthy. -/
def StompCLI.ack (s : SessionState) (args : List String) : Effect :=
  if args.length < 2 then
    ⟨s, [], ["Expecting: ack <message-id>"]⟩
  else if !truthy s.transaction_id then
    ⟨s, [ConnCall.ack [("message-id", args.getD 1 "")] none], []⟩
  else
    ⟨s, [ConnCall.ack [("message-id", args.getD 1 "")] s.transaction_id], []⟩

/-- `StompCLI.abort` (cli.py lines 121-133): with no truthy transaction print
a notice; otherwise call `conn.abort` with the token and clear it. -/
def StompCLI.abort (s : SessionState) (_args : List String) : Effect :=
  if !truthy s.transaction_id then
    ⟨s, [], ["Not currently in a transaction"]⟩
  else
    ⟨⟨none⟩, [ConnCall.abort s.transaction_id], []⟩

/-- `StompCLI.begin` (cli.py lines 135-149): with a truthy transaction open,
report it and do nothing; otherwise store the token returned by
`conn.begin()` and report it. -/
def StompCLI.begin (s : SessionState) (_args : List String) (env : Env) : Effect :=
  if truthy s.transaction_id then
    ⟨s, [], ["Currently in a transaction (" ++ (s.transaction_id.getD "") ++ ")"]⟩
  else
    ⟨⟨some env.beginToken⟩, [ConnCall.begin],
     ["Transaction id: " ++ env.beginToken]⟩

/-- `StompCLI.commit` (cli.py lines 151-164): with no truthy transaction
print a notice; otherwise print, call `conn.commit` with the token and clear
it. -/
def StompCLI.commit (s : SessionState) (_args : List String) : Effect :=
  if !truthy s.transaction_id then
    ⟨s, [], ["Not currently in a transaction"]⟩
  else
    ⟨⟨none⟩, [ConnCall.commit s.transaction_id],
     ["Committing " ++ (s.transaction_id.getD "")]⟩

/-- `StompCLI.send` (cli.py lines 179-196): with fewer than three tokens
print a usage line; otherwise send the remaining tokens joined by single
spaces to the destination, attaching the transaction token when truthy. -/
def StompCLI.send (s : SessionState) (args : List String) : Effect :=
  if args.length < 3 then
    ⟨s, [], ["Expecting: send <destination> <message>"]⟩
  else if !truthy s.transaction_id then
    ⟨s, [ConnCall.send (args.getD 1 "") (String.intercalate " " (args.drop 2))
          none none], []⟩
  else
    ⟨s, [ConnCall.send (args.getD 1 "") (String.intercalate " " (args.drop 2))
          none s.transaction_id], []⟩

/-- `StompCLI.sendfile` (cli.py lines 198-220): with fewer than three tokens
print a usage line; with an absent file report it; otherwise send the
base64-encoded file content with a `filename` header, attaching the
transaction token when truthy. -/
def StompCLI.sendfile (s : SessionState) (args : List String) (env : Env) : Effect :=
  if args.length < 3 then
    ⟨s, [], ["Expecting: sendfile <destination> <filename>"]⟩
  else if !env.fileExists (args.getD 2 "") then
    ⟨s, [], ["File " ++ args.getD 2 "" ++ " does not exist"]⟩
  else
    let msg := String.mk (b64encode (env.fileContent (args.getD 2 "")))
    if !truthy s.transaction_id then
      ⟨s, [ConnCall.send (args.getD 1 "") msg (some (args.getD 2 "")) none], []⟩
    else
      ⟨s, [ConnCall.send (args.getD 1 "") msg (some (args.getD 2 ""))
            s.transaction_id], []⟩

/-- `StompCLI.subscribe` (cli.py lines 222-245): with fewer than two tokens
print a usage line; with more than two forward the third token verbatim as
the ack mode; with exactly two use ack mode `auto`. -/
def StompCLI.subscribe (s : SessionState) (args : List String) : Effect :=
  if args.length < 2 then
    ⟨s, [], ["Expecting: subscribe <destination> [ack]"]⟩
  else if args.length > 2 then
    ⟨s, [ConnCall.subscribe (args.getD 1 "") (args.getD 2 "")],
     ["Subscribing to \"" ++ args.getD 1 "" ++ "\" with acknowledge set to \"" ++
      args.getD 2 "" ++ "\""]⟩
  else
    ⟨s, [ConnCall.subscribe (args.getD 1 "") "auto"],
     ["Subscribing to \"" ++ args.getD 1 "" ++ "\" with auto acknowledge"]⟩

/-- `StompCLI.unsubscribe` (cli.py lines 247-262): with fewer than two tokens
print a usage line; otherwise unsubscribe from the destination. -/
def StompCLI.unsubscribe (s : SessionState) (args : List String) : Effect :=
  if args.length < 2 then
    ⟨s, [], ["Expecting: unsubscribe <destination>"]⟩
  else
    ⟨s, [ConnCall.unsubscribe (args.getD 1 "")],
     ["Unsubscribing from \"" ++ args.getD 1 "" ++ "\""]⟩

/-! ## disconnect and Python name resolution -/

/-- A Python exception escaping a CLI operation. -/
inductive PyError where
  | notConnected
  | nameError (name : String)
deriving Repr, DecidableEq

/-- The names bound at module level in cli.py: the four plain imports
(lines 1-4), `internal` (line 6), the three `from`-imports (lines 7-8), and
the module-level definitions. -/
def cliModuleGlobals : List String :=
  ["base64", "os", "sys", "time", "internal", "Connection",
   "ConnectionListener", "StatsListener", "get_commands", "StompCLI", "main"]

/-- `StompCLI.disconnect` (cli.py lines 166-177): call `conn.disconnect()`
inside `try`; if the connection raises its not-connected failure
(`connRaises`), the `except NotConnectedException:` clause is evaluated,
which resolves the name `NotConnectedException` against the module's global
bindings (there is no such builtin); an unbound name turns the handler
itself into a `NameError`, which escapes. -/
def StompCLI.disconnect (s : SessionState) (connRaises : Bool) :
    Effect × Option PyError :=
  if connRaises then
    if cliModuleGlobals.contains "NotConnectedException" then
      ⟨⟨s, [ConnCall.disconnect], []⟩, none⟩
    else
      ⟨⟨s, [ConnCall.disconnect], []⟩, some (PyError.nameError "NotConnectedException")⟩
  else
    ⟨⟨s, [ConnCall.disconnect], []⟩, none⟩

/-! ## on_message: file reception -/

/-- Destination-name resolution in `StompCLI.on_message` (cli.py lines
71-74): if a file of the requested name exists, suffix the requested name
with `.` and the current Unix timestamp; otherwise keep the requested name. -/
def resolveFilename (ex : Bool) (filename : String) (now : Nat) : String :=
  if ex then filename ++ "." ++ toString now else filename

/-- The file-reception branch of `StompCLI.on_message` (cli.py lines 69-78),
taken when the headers carry `filename`: the body is base64-decoded, the
destination name is resolved against the filesystem, the decoded bytes are
written to the resolved name, and a confirmation line is presented.  Returns
(resolved name, bytes written, presented body line). -/
def StompCLI.on_message_file (ex : Bool) (filename : String) (now : Nat)
    (body : String) : String × List Nat × String :=
  let content := b64decode body.data
  let fname := resolveFilename ex filename now
  (fname, content, "Saved file: " ++ fname)

/-! ## The command catalog -/

/-- The attribute names of the `StompCLI` class as enumerated by Python's
`dir()`, in its sorted order: the standard object attributes, the mangled
private method `_StompCLI__print_async`, the event-handler callbacks
(`on_*`; those inherited from `ConnectionListener` are modelled from the
spec's callback list, the listener module not being under src/), the
commands defined in cli.py lines 100-312, and the aliases `man = help`
(line 310) and `ver = version` (line 314). -/
def stompCLIDir : List String :=
  ["_StompCLI__print_async",
   "__class__", "__delattr__", "__dict__", "__dir__", "__doc__", "__eq__",
   "__format__", "__ge__", "__getattribute__", "__gt__", "__hash__",
   "__init__", "__init_subclass__", "__le__", "__lt__", "__module__",
   "__ne__", "__new__", "__reduce__", "__reduce_ex__", "__repr__",
   "__setattr__", "__sizeof__", "__str__", "__subclasshook__", "__weakref__",
   "abort", "ack", "begin", "commit", "disconnect", "help", "man",
   "on_connected", "on_connecting", "on_disconnected", "on_error",
   "on_message", "on_receipt", "send", "sendfile", "stats", "subscribe",
   "unsubscribe", "ver", "version"]

/-- The alias assignments in the class body: `man = help` (cli.py line 310)
and `ver = version` (line 314); each pair is (alias, aliased operation). -/
def stompCLIAliases : List (String × String) := [("man", "help"), ("ver", "version")]

/-- Python's `str.startswith` on plain string prefixes. -/
def pyStartsWith (s pre : String) : Bool := pre.data.isPrefixOf s.data

/-- `get_commands` (cli.py lines 10-21): every attribute name of `StompCLI`
except those starting with `_` or `on_` and the literal name `c`. -/
def get_commands : List String :=
  stompCLIDir.filter fun f =>
    !(pyStartsWith f "_" || pyStartsWith f "on_" || f == "c")

/-! ## The command loop tokenizer and main -/

/-- Whitespace as recognised by Python's `str.split()` with no argument. -/
def pyIsSpace (c : Char) : Bool :=
  c = ' ' || c = '\t' || c = '\n' || c = '\r' || c = '\x0b' || c = '\x0c'

/-- Helper for `pySplit`: walk the characters, accumulating the current
token (reversed). -/
def pySplitAux : List Char → List Char → List String
  | [], acc => if acc.isEmpty then [] else [⟨acc.reverse⟩]
  | c :: cs, acc =>
      if pyIsSpace c then
        if acc.isEmpty then pySplitAux cs []
        else ⟨acc.reverse⟩ :: pySplitAux cs []
      else pySplitAux cs (c :: acc)

/-- Python's `line.split()` (cli.py line 365): split on runs of whitespace,
discarding empty tokens. -/
def pySplit (line : String) : List String := pySplitAux line.data []

/-- The result of `main`'s startup-argument handling (cli.py lines 335-356). -/
inductive MainResult where
  | usageExit (message : String) (code : Nat)
  | valueError
  | run (host : String) (port : Int) (user passcode : Option String)
deriving Repr, DecidableEq

/-- The numeric value of a decimal digit character. -/
def digitVal (c : Char) : Option Nat :=
  if '0' ≤ c ∧ c ≤ '9' then some (c.toNat - 48) else none

/-- Accumulate decimal digits left to right; `none` on a non-digit. -/
def decDigitsAux : List Char → Nat → Option Nat
  | [], acc => some acc
  | c :: cs, acc =>
      match digitVal c with
      | none => none
      | some d => decDigitsAux cs (acc * 10 + d)

/-- Python's `int()` on the port argument, modelled for plain decimal
numerals with an optional leading sign (no surrounding whitespace or
underscore separators); `none` stands for a `ValueError`. -/
def pyInt (s : String) : Option Int :=
  match s.data with
  | [] => none
  | '-' :: cs =>
      if cs.isEmpty then none
      else (decDigitsAux cs 0).map fun n => -(n : Int)
  | '+' :: cs =>
      if cs.isEmpty then none
      else (decDigitsAux cs 0).map fun n => (n : Int)
  | cs => (decDigitsAux cs 0).map fun n => (n : Int)

/-- `main`'s startup-argument handling (cli.py lines 335-356): more than
five entries in `sys.argv` (the program name plus more than four arguments)
prints a usage line and exits with code 1; otherwise host defaults to
`localhost`, port to `61613`, and `user`/`passcode` are taken from the
arguments only when `len(sys.argv) >= 5`, i.e. when both are present. -/
def mainArgs (argv : List String) : MainResult :=
  if argv.length > 5 then
    MainResult.usageExit "USAGE: stomp.py [host] [port] [user] [passcode]" 1
  else
    let host := if argv.length ≥ 2 then argv.getD 1 "" else "localhost"
    let port? := if argv.length ≥ 3 then pyInt (argv.getD 2 "") else some 61613
    match port? with
    | none => MainResult.valueError
    | some port =>
        if argv.length ≥ 5 then
          MainResult.run host port (some (argv.getD 3 "")) (some (argv.getD 4 ""))
        else
          MainResult.run host port none none

/-! ## Claim theorems -/

/-- A `some` transaction token is Python-truthy exactly when it is not the
empty string. -/
theorem truthy_some (t : String) (ht : t ≠ "") : truthy (some t) = true := by
  simp [truthy, ht]

/-- C1: the claim says a "not connected" failure raised by
`conn.disconnect()` is swallowed and `disconnect` returns normally.  On the
code this fails: cli.py never imports or defines `NotConnectedException`
(see `cliModuleGlobals`), so evaluating the `except` clause raises
`NameError` and an exception escapes to the caller.  Without the failure the
operation does return normally after one `disconnect` call. -/
theorem disconnect_notConnected_raises_nameError :
    (StompCLI.disconnect ⟨none⟩ true).2 =
        some (PyError.nameError "NotConnectedException") ∧
    (StompCLI.disconnect ⟨none⟩ true).1.calls = [ConnCall.disconnect] ∧
    (StompCLI.disconnect ⟨none⟩ false).2 = none := by
  decide

/-- C2: `begin` is idempotent in effect: from any session state, a second
`begin` (no `commit`/`abort` between) leaves `transaction_id` exactly as the
first call left it, makes no call into the connection capability, and prints
the currently stored token.  The token handed out by the connection's
`begin()` is an opaque non-empty string (modelled from the spec). -/
theorem begin_idempotent (s : SessionState) (args : List String) (env : Env)
    (htok : env.beginToken ≠ "") :
    (StompCLI.begin (StompCLI.begin s args env).state args env).state.transaction_id
        = (StompCLI.begin s args env).state.transaction_id ∧
    (StompCLI.begin (StompCLI.begin s args env).state args env).calls = [] ∧
    (StompCLI.begin (StompCLI.begin s args env).state args env).prints
        = ["Currently in a transaction (" ++
           ((StompCLI.begin s args env).state.transaction_id.getD "") ++ ")"] := by
  by_cases h : truthy s.transaction_id = true
  · simp [StompCLI.begin, h]
  · simp only [StompCLI.begin, h, if_neg, Bool.not_eq_true] at *
    simp [h, truthy_some _ htok]

/-- C2 witness: a concrete run from the fresh state with token `tx1`. -/
theorem begin_idempotent_witness :
    (StompCLI.begin (StompCLI.begin ⟨none⟩ ["begin"]
        ⟨"tx1", fun _ => false, fun _ => []⟩).state ["begin"]
        ⟨"tx1", fun _ => false, fun _ => []⟩).calls = [] :=
  (begin_idempotent ⟨none⟩ ["begin"] ⟨"tx1", fun _ => false, fun _ => []⟩
    (by decide)).2.1

/-- C3: with no transaction open (`transaction_id` absent), `commit` and
`abort` each print a notice, make no call into the connection capability,
and leave `transaction_id` absent. -/
theorem commit_abort_no_transaction (s : SessionState) (args : List String)
    (h : s.transaction_id = none) :
    StompCLI.commit s args = ⟨s, [], ["Not currently in a transaction"]⟩ ∧
    StompCLI.abort s args = ⟨s, [], ["Not currently in a transaction"]⟩ ∧
    (StompCLI.commit s args).state.transaction_id = none ∧
    (StompCLI.abort s args).state.transaction_id = none := by
  simp [StompCLI.commit, StompCLI.abort, truthy, h]

/-- C3 witness: the fresh state. -/
theorem commit_abort_no_transaction_witness :
    StompCLI.commit ⟨none⟩ ["commit"] = ⟨⟨none⟩, [], ["Not currently in a transaction"]⟩ :=
  (commit_abort_no_transaction ⟨none⟩ ["commit"] rfl).1

/-- C4: every command with a required argument count, given fewer tokens
than required, prints its usage line, leaves the session state unchanged,
and makes no call into the connection capability (so listeners registered
with the connection are untouched as well). -/
theorem usage_error_no_effect (s : SessionState) (args : List String) (env : Env) :
    (args.length < 2 →
      StompCLI.ack s args = ⟨s, [], ["Expecting: ack <message-id>"]⟩) ∧
    (args.length < 3 →
      StompCLI.send s args = ⟨s, [], ["Expecting: send <destination> <message>"]⟩) ∧
    (args.length < 3 →
      StompCLI.sendfile s args env =
        ⟨s, [], ["Expecting: sendfile <destination> <filename>"]⟩) ∧
    (args.length < 2 →
      StompCLI.subscribe s args = ⟨s, [], ["Expecting: subscribe <destination> [ack]"]⟩) ∧
    (args.length < 2 →
      StompCLI.unsubscribe s args = ⟨s, [], ["Expecting: unsubscribe <destination>"]⟩) := by
  refine ⟨fun h => ?_, fun h => ?_, fun h => ?_, fun h => ?_, fun h => ?_⟩ <;>
    simp [StompCLI.ack, StompCLI.send, StompCLI.sendfile, StompCLI.subscribe,
      StompCLI.unsubscribe, h]

/-- C4 witness: each operation invoked with only its command token. -/
theorem usage_error_no_effect_witness :
    StompCLI.ack ⟨none⟩ ["ack"] = ⟨⟨none⟩, [], ["Expecting: ack <message-id>"]⟩ ∧
    StompCLI.send ⟨none⟩ ["ack"] = ⟨⟨none⟩, [], ["Expecting: send <destination> <message>"]⟩ ∧
    StompCLI.sendfile ⟨none⟩ ["ack"] ⟨"t", fun _ => false, fun _ => []⟩ =
      ⟨⟨none⟩, [], ["Expecting: sendfile <destination> <filename>"]⟩ ∧
    StompCLI.subscribe ⟨none⟩ ["ack"] = ⟨⟨none⟩, [], ["Expecting: subscribe <destination> [ack]"]⟩ ∧
    StompCLI.unsubscribe ⟨none⟩ ["ack"] = ⟨⟨none⟩, [], ["Expecting: unsubscribe <destination>"]⟩ := by
  have h := usage_error_no_effect ⟨none⟩ ["ack"] ⟨"t", fun _ => false, fun _ => []⟩
  exact ⟨h.1 (by decide), h.2.1 (by decide), h.2.2.1 (by decide),
    h.2.2.2.1 (by decide), h.2.2.2.2 (by decide)⟩

/-- C5: the transfer codec round-trips: decoding the encoding of any byte
sequence (each byte below 256), including the empty one, yields the
sequence back. -/
theorem b64_roundtrip (l : List Nat) (h : ∀ x ∈ l, x < 256) :
    b64decode (b64encode l) = l :=
  b64decode_b64encode l h

/-- C5 witness: a concrete binary, non-UTF8-looking sequence, exercising a
full quadruple and a padded tail. -/
theorem b64_roundtrip_witness :
    b64decode (b64encode [0, 255, 97, 10]) = [0, 255, 97, 10] ∧
    b64decode (b64encode []) = [] :=
  ⟨b64_roundtrip [0, 255, 97, 10] (by decide), b64_roundtrip [] (by decide)⟩

/-- Appending `.` and a rendered timestamp changes a string. -/
theorem append_timestamp_ne (s : String) (n : Nat) : s ++ "." ++ toString n ≠ s := by
  intro h
  have hd := congrArg String.data h
  simp only [String.data_append] at hd
  have hlen := congrArg List.length hd
  simp only [List.length_append, List.length_cons, List.length_nil] at hlen
  omega

/-- C6: file reception naming — when a file of the requested name exists,
the resolved name is the requested name suffixed with the current Unix
timestamp and hence differs from the requested name; when none exists, the
resolved name is exactly the requested name; in both cases the bytes
written are the base64 decoding of the message body. -/
theorem filename_resolution (filename : String) (now : Nat) (body : String)
    (ex : Bool) :
    (StompCLI.on_message_file true filename now body).1
        = filename ++ "." ++ toString now ∧
    (StompCLI.on_message_file true filename now body).1 ≠ filename ∧
    (StompCLI.on_message_file false filename now body).1 = filename ∧
    (StompCLI.on_message_file ex filename now body).2.1 = b64decode body.data := by
  exact ⟨rfl, fun heq => append_timestamp_ne filename now heq, rfl, rfl⟩

/-- C7 counterexample: the claim says every operation aliasing another is
excluded from the catalog; but the aliases `man` (of `help`) and `ver` (of
`version`) both appear in `get_commands`. -/
theorem get_commands_includes_aliases :
    ("man", "help") ∈ stompCLIAliases ∧ ("ver", "version") ∈ stompCLIAliases ∧
    "man" ∈ get_commands ∧ "ver" ∈ get_commands := by
  decide

/-- C7 amended: the catalog excludes exactly the attribute names starting
with `_` or `on_` and the literal name `c`; every other attribute —
including the aliases `man` and `ver` — is included, in the stable sorted
order `dir()` produces. -/
theorem get_commands_catalog :
    get_commands = ["abort", "ack", "begin", "commit", "disconnect", "help",
      "man", "send", "sendfile", "stats", "subscribe", "unsubscribe", "ver",
      "version"] ∧
    (∀ f ∈ stompCLIDir,
      (pyStartsWith f "_" = false ∧ pyStartsWith f "on_" = false ∧ f ≠ "c") →
        f ∈ get_commands) ∧
    (∀ f ∈ get_commands,
      pyStartsWith f "_" = false ∧ pyStartsWith f "on_" = false ∧ f ≠ "c") := by
  decide

/-- C7 amended witness: a concrete name passing the filter is in the
catalog. -/
theorem get_commands_catalog_witness : "man" ∈ get_commands :=
  get_commands_catalog.2.1 "man" (by decide) (by decide)

/-- C8: the input line `send /queue/test hello world` tokenizes to four
tokens; dispatched on a state with no open transaction it produces exactly
one send call with destination `/queue/test`, message `hello world` and no
transaction token; and in general, any `send` of at least three tokens run
with a truthy open transaction token attaches that token to the send
call. -/
theorem send_dispatch (s : SessionState) (args : List String) (t : String)
    (hopen : s.transaction_id = some t) (ht : t ≠ "") (hlen : 3 ≤ args.length) :
    (pySplit "send /queue/test hello world"
        = ["send", "/queue/test", "hello", "world"] ∧
      StompCLI.send ⟨none⟩ (pySplit "send /queue/test hello world")
        = ⟨⟨none⟩, [ConnCall.send "/queue/test" "hello world" none none], []⟩) ∧
    StompCLI.send s args
      = ⟨s, [ConnCall.send (args.getD 1 "")
              (String.intercalate " " (args.drop 2)) none (some t)], []⟩ := by
  refine ⟨⟨by decide, by decide⟩, ?_⟩
  have h3 : ¬ args.length < 3 := by omega
  simp [StompCLI.send, h3, hopen, truthy_some t ht]

/-- C8 witness: a concrete transactional send. -/
theorem send_dispatch_witness :
    StompCLI.send ⟨some "tx"⟩ ["send", "/queue/q", "hi"]
      = ⟨⟨some "tx"⟩, [ConnCall.send "/queue/q" "hi" none (some "tx")], []⟩ :=
  (send_dispatch ⟨some "tx"⟩ ["send", "/queue/q", "hi"] "tx" rfl (by decide)
    (by decide)).2

/-- C9 counterexample: the claim says supplied user and passcode values are
used and omitted ones default; but with exactly three program arguments
(`host port user`, so `len(sys.argv) = 4`) the supplied user is silently
dropped: the connection gets no user and no passcode. -/
theorem mainArgs_user_without_passcode :
    mainArgs ["stomp.py", "remote", "61613", "alice"]
        = MainResult.run "remote" 61613 none none ∧
    mainArgs ["stomp.py", "remote", "61613", "alice"]
        ≠ MainResult.run "remote" 61613 (some "alice") none := by
  decide

/-- C9 amended: more than four program arguments is a usage error exiting
with code 1; otherwise host defaults to `localhost` and port to `61613`
when omitted, and the user and passcode arguments are used only when both
are supplied — with exactly three arguments the third is ignored and both
credentials stay absent. -/
theorem mainArgs_spec (argv : List String) (p : Int) :
    (argv.length > 5 → mainArgs argv =
        MainResult.usageExit "USAGE: stomp.py [host] [port] [user] [passcode]" 1) ∧
    (argv.length ≤ 2 → mainArgs argv =
        MainResult.run (if argv.length = 2 then argv.getD 1 "" else "localhost")
          61613 none none) ∧
    (3 ≤ argv.length → argv.length ≤ 4 → pyInt (argv.getD 2 "") = some p →
        mainArgs argv = MainResult.run (argv.getD 1 "") p none none) ∧
    (argv.length = 5 → pyInt (argv.getD 2 "") = some p →
        mainArgs argv = MainResult.run (argv.getD 1 "") p
          (some (argv.getD 3 "")) (some (argv.getD 4 ""))) := by
  refine ⟨fun h5 => ?_, fun h2 => ?_, fun h3 h4 hp => ?_, fun h5 hp => ?_⟩
  · simp [mainArgs, h5]
  · have hn5 : ¬ argv.length > 5 := by omega
    have hn3 : ¬ argv.length ≥ 3 := by omega
    have hn5' : ¬ argv.length ≥ 5 := by omega
    by_cases he : argv.length = 2
    · have h2' : argv.length ≥ 2 := by omega
      simp [mainArgs, hn5, hn3, hn5', he, h2']
    · have h2' : ¬ argv.length ≥ 2 := by omega
      simp [mainArgs, hn5, hn3, hn5', he, h2']
  · have hn5 : ¬ argv.length > 5 := by omega
    have hg2 : argv.length ≥ 2 := by omega
    have hg3 : argv.length ≥ 3 := by omega
    have hn5' : ¬ argv.length ≥ 5 := by omega
    simp only [List.getD_eq_getElem?_getD] at hp
    simp [mainArgs, hn5, hg2, hg3, hn5', hp]
  · have hn5 : ¬ argv.length > 5 := by omega
    have hg2 : argv.length ≥ 2 := by omega
    have hg3 : argv.length ≥ 3 := by omega
    have hg5 : argv.length ≥ 5 := by omega
    simp only [List.getD_eq_getElem?_getD] at hp
    simp [mainArgs, hn5, hg2, hg3, hg5, hp]

/-- C9 amended witness: all four arguments supplied. -/
theorem mainArgs_spec_witness :
    mainArgs ["stomp.py", "h", "1", "u", "p"]
        = MainResult.run "h" 1 (some "u") (some "p") := by
  have h := (mainArgs_spec ["stomp.py", "h", "1", "u", "p"] 1).2.2.2 rfl (by decide)
  exact h

/-- C10: `subscribe` with at least three tokens forwards the third token
verbatim to the connection's subscribe call as the ack mode — any string,
with no usage error — and with exactly two tokens the ack mode sent is
`auto`. -/
theorem subscribe_ack_forwarding (s : SessionState) (args : List String)
    (h3 : 3 ≤ args.length) :
    StompCLI.subscribe s args
      = ⟨s, [ConnCall.subscribe (args.getD 1 "") (args.getD 2 "")],
         ["Subscribing to \"" ++ args.getD 1 "" ++
          "\" with acknowledge set to \"" ++ args.getD 2 "" ++ "\""]⟩ ∧
    (∀ d : String, StompCLI.subscribe s ["subscribe", d]
      = ⟨s, [ConnCall.subscribe d "auto"],
         ["Subscribing to \"" ++ d ++ "\" with auto acknowledge"]⟩) := by
  constructor
  · have hn2 : ¬ args.length < 2 := by omega
    have hg2 : args.length > 2 := by omega
    simp [StompCLI.subscribe, hn2, hg2]
  · intro d
    simp [StompCLI.subscribe]

/-- C10 witness: a non-`auto`, non-`client` ack mode is forwarded
verbatim. -/
theorem subscribe_ack_forwarding_witness :
    StompCLI.subscribe ⟨none⟩ ["subscribe", "/queue/a", "weird"]
      = ⟨⟨none⟩, [ConnCall.subscribe "/queue/a" "weird"],
         ["Subscribing to \"/queue/a\" with acknowledge set to \"weird\""]⟩ := by
  have h := (subscribe_ack_forwarding ⟨none⟩ ["subscribe", "/queue/a", "weird"]
    (by decide)).1
  exact h
